import Mathlib

/-!
Verification of the PKI bootstrapper in `src/cli/internal/utils/pki.go`
(package `utils` of catsby/zarf).

The Go code is shallowly embedded: pure computations become Lean
functions; every filesystem / process side effect becomes an explicit
`Event` in a trace; every fallible library call is driven by an
environment `Env` of success/failure outcomes, so that error
propagation in the Go code is modelled exactly (including the places
where the Go code discards an error).  Go `time.Duration` values are
natural numbers of nanoseconds; Go byte strings are `String`/`List Char`;
Go `net.IP` values are lists of byte values.
-/

/-- The constant `rsaBits` from pki.go line 21. -/
def rsaBits : Nat := 2048

/-- The constant `org` from pki.go line 22: the fixed subject organization. -/
def org : String := "Zarf Utility Cluster"

/-- One Go `time.Hour` in nanoseconds (`time.Duration` counts nanoseconds). -/
def time_Hour : Nat := 3600 * 1000000000

/-- The constant `validFor` from pki.go line 25: `time.Hour * 24 * 375`. -/
def validFor : Nat := time_Hour * 24 * 375

/-- Nanoseconds in one day, for stating `validFor` in days. -/
def nsPerDay : Nat := time_Hour * 24

/-- The constant `randomStringChars` from pki.go line 28. -/
def randomStringChars : String :=
  "0123456789abcdefghijklmnopqrstuvwxyzABCDEFGHIJKLMNOPQRSTUVWXYZ!~-"

/-- One step of `RandomString`'s loop body from pki.go line 37:
`bytes[i] = randomStringChars[b%byte(len(randomStringChars))]`.
The input models one byte produced by `crypto/rand.Read`; the explicit
`% 256` reflects the Go `byte` type of `b`. -/
def randomStringChar (b : Nat) : Char :=
  randomStringChars.toList.getD (b % 256 % randomStringChars.length) ' '

/-- Embeds `RandomString` from pki.go lines 30-44.  `crypto/rand.Read`
either fills the buffer completely or the process is terminated by
`logrus.Fatal`, so the surviving executions are exactly the ones where
the random bytes are supplied in full: `randBytes` is that buffer (one
entry per requested byte, the requested length being `randBytes.length`). -/
def RandomString (randBytes : List Nat) : String :=
  String.mk (randBytes.map randomStringChar)

/-- X.509 key usage flag `x509.KeyUsageDigitalSignature` (bit 0). -/
def keyUsageDigitalSignature : Nat := 1

/-- X.509 key usage flag `x509.KeyUsageKeyEncipherment` (bit 2). -/
def keyUsageKeyEncipherment : Nat := 4

/-- X.509 key usage flag `x509.KeyUsageCertSign` (bit 5). -/
def keyUsageCertSign : Nat := 32

/-- The subject name fields of `pkix.Name` that pki.go sets. -/
structure PkixName where
  Organization : List String
  CommonName : String
deriving DecidableEq, Repr

/-- The fields of Go's `x509.Certificate` that pki.go reads or writes.
`NotBefore`/`NotAfter` are clock values in nanoseconds; `KeyUsage` is
the Go bitmask; `IPAddresses` holds `net.IP` values as byte lists. -/
structure Certificate where
  SerialNumber : Nat
  Subject : PkixName
  NotBefore : Nat
  NotAfter : Nat
  KeyUsage : Nat
  BasicConstraintsValid : Bool
  IsCA : Bool
  DNSNames : List String
  IPAddresses : List (List Nat)
deriving DecidableEq, Repr

/-- Embeds `newCertificate` from pki.go lines 78-100.  The Go function
reads the clock (`time.Now()`) and draws a fresh 128-bit serial number;
both are inputs here (`now` in nanoseconds, `serial` the drawn number).
A failure of the serial draw is `logrus.Fatalf` (process death), so the
surviving executions are exactly the ones with a serial available.
All unset `x509.Certificate` fields keep their Go zero values. -/
def newCertificate (vf now serial : Nat) : Certificate :=
  { SerialNumber := serial
    Subject := { Organization := [org], CommonName := "" }
    NotBefore := now
    NotAfter := now + vf
    KeyUsage := keyUsageKeyEncipherment ||| keyUsageDigitalSignature
    BasicConstraintsValid := true
    IsCA := false
    DNSNames := []
    IPAddresses := [] }

/-- Modelled from the Go standard library (`net/ip.go`, Go 1.16, the
toolchain era of this repository): the decimal-field reader `dtoi`.
Reads leading decimal digits, accumulating the value; a value reaching
`0xFFFFFF` aborts with `ok = false`.  Returns (value, chars consumed, ok). -/
def dtoiLoop (n i : Nat) : List Char → Nat × Nat × Bool
  | c :: rest =>
    if '0' ≤ c ∧ c ≤ '9' then
      let n' := n * 10 + (c.toNat - '0'.toNat)
      if n' ≥ 0xFFFFFF then (0xFFFFFF, i, false) else dtoiLoop n' (i + 1) rest
    else (n, i, true)
  | [] => (n, i, true)

/-- Modelled from the Go standard library: `dtoi` demands at least one digit. -/
def dtoi (s : List Char) : Nat × Nat × Bool :=
  let r := dtoiLoop 0 0 s
  if r.2.2 ∧ r.2.1 = 0 then (0, 0, false) else r

/-- Modelled from the Go standard library: the hexadecimal-field reader
`xtoi`, same contract as `dtoi` but base 16 with both letter cases. -/
def xtoiLoop (n i : Nat) : List Char → Nat × Nat × Bool
  | c :: rest =>
    let d : Option Nat :=
      if '0' ≤ c ∧ c ≤ '9' then some (c.toNat - '0'.toNat)
      else if 'a' ≤ c ∧ c ≤ 'f' then some (c.toNat - 'a'.toNat + 10)
      else if 'A' ≤ c ∧ c ≤ 'F' then some (c.toNat - 'A'.toNat + 10)
      else none
    match d with
    | none => (n, i, true)
    | some d =>
      let n' := n * 16 + d
      if n' ≥ 0xFFFFFF then (0, i, false) else xtoiLoop n' (i + 1) rest
  | [] => (n, i, true)

/-- Modelled from the Go standard library: `xtoi` demands at least one digit. -/
def xtoi (s : List Char) : Nat × Nat × Bool :=
  let r := xtoiLoop 0 0 s
  if r.2.2 ∧ r.2.1 = 0 then (0, 0, false) else r

/-- Modelled from the Go standard library: the four-field loop of
`parseIPv4`.  Field `k` counts fields still to read; every field after
the first must be preceded by a dot; each field is a decimal value at
most 255; the whole input must be consumed. -/
def parseV4Fields : Nat → List Char → List Nat → Option (List Nat)
  | 0, s, acc => if s.isEmpty then some acc.reverse else none
  | k + 1, s, acc =>
    let s' : Option (List Char) :=
      if acc.isEmpty then some s
      else match s with
        | '.' :: r => some r
        | _ => none
    match s' with
    | none => none
    | some s' =>
      let r := dtoi s'
      if r.2.2 ∧ r.1 ≤ 0xFF then parseV4Fields k (s'.drop r.2.1) (r.1 :: acc)
      else none

/-- Modelled from the Go standard library: the 12-byte prefix `v4InV6Pre`
used to return IPv4 addresses in 16-byte form (`net.IPv4`). -/
def v4InV6 (quad : List Nat) : List Nat :=
  [0, 0, 0, 0, 0, 0, 0, 0, 0, 0, 0xFF, 0xFF] ++ quad

/-- Modelled from the Go standard library: `parseIPv4`, producing the
16-byte `net.IPv4` form. -/
def parseIPv4 (s : List Char) : Option (List Nat) :=
  (parseV4Fields 4 s []).map v4InV6

/-- Modelled from the Go standard library: the main loop of `parseIPv6`.
`bytes` is the output written so far (Go's `ip[0:i]`), `ellipsis` the
recorded position of a `::` group if one was seen.  Each iteration reads
one 16-bit hex group (or a trailing embedded IPv4 address) and the
following separator.  The fuel bounds the iteration count: each
recursive call grows `bytes` by two, and the loop stops at 16 bytes. -/
def parseV6Loop : Nat → List Char → List Nat → Option Nat →
    Option (List Nat × Option Nat)
  | 0, s, bytes, ellipsis =>
    if s.isEmpty then some (bytes, ellipsis) else none
  | fuel + 1, s, bytes, ellipsis =>
    if bytes.length ≥ 16 then
      if s.isEmpty then some (bytes, ellipsis) else none
    else
      let r := xtoi s
      if ¬ r.2.2 ∨ r.1 > 0xFFFF then none
      else if (s.drop r.2.1).head? = some '.' then
        if (ellipsis = none ∧ bytes.length ≠ 12) ∨ bytes.length + 4 > 16 then
          none
        else
          match parseV4Fields 4 s [] with
          | some quad => some (bytes ++ quad, ellipsis)
          | none => none
      else
        let bytes := bytes ++ [r.1 / 256, r.1 % 256]
        match s.drop r.2.1 with
        | [] => some (bytes, ellipsis)
        | [':'] => none
        | ':' :: ':' :: rest =>
          if ellipsis.isSome then none
          else if rest.isEmpty then some (bytes, some bytes.length)
          else parseV6Loop fuel rest bytes (some bytes.length)
        | ':' :: rest => parseV6Loop fuel rest bytes ellipsis
        | _ => none

/-- Modelled from the Go standard library: `parseIPv6` — an optional
leading `::`, the group loop, then expansion of the `::` gap with zero
bytes.  Zone suffixes (`%zone`) are not modelled. -/
def parseIPv6 (s : List Char) : Option (List Nat) :=
  let pre : List Char × Option Nat :=
    match s with
    | ':' :: ':' :: rest => (rest, some 0)
    | _ => (s, none)
  if pre.1.isEmpty ∧ pre.2 = some 0 then some (List.replicate 16 0)
  else
    match parseV6Loop 8 pre.1 [] pre.2 with
    | none => none
    | some (bytes, ellipsis) =>
      if bytes.length < 16 then
        match ellipsis with
        | none => none
        | some e =>
          some (bytes.take e ++ List.replicate (16 - bytes.length) 0 ++
            bytes.drop e)
      else if ellipsis.isSome then none
      else some bytes

/-- Modelled from the Go standard library: `net.ParseIP` dispatches on
the first `.` or `:` in the string; with neither the result is `nil`. -/
def net_ParseIP (s : String) : Option (List Nat) :=
  match s.toList.find? (fun c => c = '.' ∨ c = ':') with
  | some '.' => parseIPv4 s.toList
  | some ':' => parseIPv6 s.toList
  | _ => none

/-- An RSA private key, identified abstractly (the key material itself
plays no role in the claims; only identity and placement matter). -/
abbrev Key := Nat

/-- Byte strings that pki.go writes or passes around: the DER encoding
of a certificate produced by `x509.CreateCertificate` (determined by
the template, the parent, whose public key is certified and who signed),
or the PKCS#1 encoding of a private key from `x509.MarshalPKCS1PrivateKey`. -/
inductive Bytes where
  | certDer (template parent : Certificate) (pub signer : Key)
  | pkcs1 (key : Key)
deriving DecidableEq, Repr

/-- The errors the embedded functions can surface, tagged by source. -/
inductive Err where
  | keyGen
  | createCert
  | parseCert
  | create (path : String)
  | openFile (path : String)
  | pemEncode (path : String)
deriving DecidableEq, Repr

/-- One observable side effect:
directory creation with a mode, `os.Create` (default permissions),
`os.OpenFile` with an explicit mode, a completed `pem.Encode` to the
file at a path, an external command execution, a print. -/
inductive Event where
  | mkdir (path : String) (mode : Nat)
  | fileCreate (path : String)
  | openFile (path : String) (mode : Nat)
  | pemWrite (path : String) (label : String) (data : Bytes)
  | exec (argv : List String)
  | print (msg : String)
deriving DecidableEq, Repr

/-- The environment drives every fallible library call: whether key
generation, certificate signing and certificate parsing succeed, and
whether file creation, file opening and PEM encoding succeed per path.
This makes the Go code's error propagation provable for every
combination of underlying failures. -/
structure Env where
  keyGenOk : Key → Bool
  createCertOk : Certificate → Bool
  parseCertOk : Bool
  createOk : String → Bool
  openFileOk : String → Bool
  pemEncodeOk : String → Bool

/-- The all-success environment. -/
def allOk : Env :=
  { keyGenOk := fun _ => true
    createCertOk := fun _ => true
    parseCertOk := true
    createOk := fun _ => true
    openFileOk := fun _ => true
    pemEncodeOk := fun _ => true }

/-- Embeds `newPrivateKey` from pki.go lines 103-105: `rsa.GenerateKey`
either yields a fresh key or fails. `fresh` is the key the random
source would produce. -/
def newPrivateKey (env : Env) (fresh : Key) : Except Err Key :=
  if env.keyGenOk fresh then .ok fresh else .error .keyGen

/-- Models `x509.CreateCertificate`: on success the DER bytes are
determined by template, parent and the two keys. -/
def x509_CreateCertificate (env : Env) (template parent : Certificate)
    (pub signer : Key) : Except Err Bytes :=
  if env.createCertOk template then .ok (.certDer template parent pub signer)
  else .error .createCert

/-- Models `x509.ParseCertificate`: round-trips the DER bytes back to
the certificate they encode (DER from `x509.CreateCertificate` carries
the template's fields). -/
def x509_ParseCertificate (env : Env) (b : Bytes) : Except Err Certificate :=
  match b with
  | .certDer t _ _ _ => if env.parseCertOk then .ok t else .error .parseCert
  | .pkcs1 _ => .error .parseCert

/-- Embeds `savePrivateKey` from pki.go lines 187-198: open the key file
with `os.O_WRONLY|os.O_CREATE|os.O_TRUNC` and mode `0600` (an open
failure is returned), then `pem.Encode` the PKCS#1 bytes under the
label "RSA PRIVATE KEY" — the Go code discards `pem.Encode`'s result
and returns `nil` regardless, which this embedding reproduces. -/
def savePrivateKey (env : Env) (key : Key) (keyFile : String) :
    List Event × Option Err :=
  if env.openFileOk keyFile then
    (Event.openFile keyFile 0o600 ::
      (if env.pemEncodeOk keyFile then
        [Event.pemWrite keyFile "RSA PRIVATE KEY" (.pkcs1 key)]
      else []),
      none)
  else ([], some (.openFile keyFile))

/-- Embeds `generateFromTemplate` from pki.go lines 170-184: sign the
template with the parent key, create the cert file (`os.Create`),
`pem.Encode` the DER bytes to it — the Go code discards this
`pem.Encode` result, reproduced here — close, then `savePrivateKey`. -/
def generateFromTemplate (env : Env) (certFile keyFile : String)
    (template parent : Certificate) (key parentKey : Key) :
    List Event × Option Err :=
  match x509_CreateCertificate env template parent key parentKey with
  | .error e => ([], some e)
  | .ok derBytes =>
    if env.createOk certFile then
      let certEvents := Event.fileCreate certFile ::
        (if env.pemEncodeOk certFile then
          [Event.pemWrite certFile "CERTIFICATE" derBytes]
        else [])
      let saved := savePrivateKey env key keyFile
      (certEvents ++ saved.1, saved.2)
    else ([], some (.create certFile))

/-- The template-construction part of `generateCert`, pki.go lines
147-158: start from `newCertificate`, then either record the parsed IP
in the IP SAN list, or record `host`, "localhost" and "*.localhost" as
DNS SANs and default the common name to `host` when it is unset. -/
def leafTemplate (vf now serial : Nat) (host : String) : Certificate :=
  let template := newCertificate vf now serial
  match net_ParseIP host with
  | some ip => { template with IPAddresses := template.IPAddresses ++ [ip] }
  | none =>
    let t := { template with
      DNSNames := template.DNSNames ++ [host, "localhost", "*.localhost"] }
    if t.Subject.CommonName = "" then
      { t with Subject := { t.Subject with CommonName := host } }
    else t

/-- Embeds `generateCert` from pki.go lines 144-167: build the leaf
template, generate a fresh leaf key, then `generateFromTemplate` signed
by the CA. -/
def generateCert (env : Env) (now serial : Nat) (freshKey : Key)
    (host certFile keyFile : String) (ca : Certificate) (caKey : Key)
    (vf : Nat) : List Event × Option Err :=
  let template := leafTemplate vf now serial host
  match newPrivateKey env freshKey with
  | .error e => ([], some e)
  | .ok priv => generateFromTemplate env certFile keyFile template ca priv caKey

/-- The template-construction part of `generateCA`, pki.go lines
111-115: `newCertificate`, then `IsCA = true`, the certificate-sign
key-usage bit or-ed in, and the fixed CA common name. -/
def caTemplate (vf now serial : Nat) : Certificate :=
  let template := newCertificate vf now serial
  { template with
    IsCA := true
    KeyUsage := template.KeyUsage ||| keyUsageCertSign
    Subject := { template.Subject with
      CommonName := "Zarf Private Certificate Authority" } }

/-- Embeds `generateCA` from pki.go lines 107-142: build the CA
template, generate a key, self-sign, parse the DER back, create the CA
file and `pem.Encode` the DER to it — here the Go code does check the
`pem.Encode` result and returns its error.  On success the parsed
certificate and the in-memory private key are returned. -/
def generateCA (env : Env) (now serial : Nat) (freshKey : Key)
    (caFile : String) (vf : Nat) :
    List Event × Except Err (Certificate × Key) :=
  let template := caTemplate vf now serial
  match newPrivateKey env freshKey with
  | .error e => ([], .error e)
  | .ok priv =>
    match x509_CreateCertificate env template template priv priv with
    | .error e => ([], .error e)
    | .ok derBytes =>
      match x509_ParseCertificate env derBytes with
      | .error e => ([], .error e)
      | .ok ca =>
        if env.createOk caFile then
          if env.pemEncodeOk caFile then
            ([Event.fileCreate caFile,
              Event.pemWrite caFile "CERTIFICATE" derBytes],
              .ok (ca, priv))
          else ([Event.fileCreate caFile], .error (.pemEncode caFile))
        else ([], .error (.create caFile))

/-- Models `path/filepath.Join` for a clean directory path and a
relative file name, as used in pki.go lines 50, 56, 57. -/
def filepath_Join (dir name : String) : String := dir ++ "/" ++ name

/-- Embeds `GeneratePKI` from pki.go lines 46-76.  `AssetPath` (the
directory-resolution helper of package `utils`, not part of the sources
given) is an input.  `CreateDirectory(directory, 0700)` is modelled
from the spec: the directory-creation helper ensures the directory
exists with the given permissions.  Every error from `generateCA` or
`generateCert` goes to `logrus.Fatal`, which terminates the process:
a `some` in the second component is that termination. -/
def GeneratePKI (env : Env) (assetPath : String → String)
    (nowCA serialCA caFresh nowLeaf serialLeaf leafFresh : Nat)
    (host : String) : List Event × Option Err :=
  let directory := assetPath "certs"
  let caFile := filepath_Join directory "zarf-ca.pem"
  let rest : List Event × Option Err :=
    match generateCA env nowCA serialCA caFresh caFile validFor with
    | (evs, .error e) => (evs, some e)
    | (evs, .ok (ca, caKey)) =>
      let hostCert := filepath_Join directory "zarf-server.crt"
      let hostKey := filepath_Join directory "zarf-server.key"
      match generateCert env nowLeaf serialLeaf leafFresh host hostCert
          hostKey ca caKey validFor with
      | (evs2, some e) => (evs ++ evs2, some e)
      | (evs2, none) =>
        (evs ++ evs2 ++
          [Event.exec ["/usr/local/bin/kubectl", "-n", "kube-system",
            "delete", "secret", "tls-pem", "--ignore-not-found"],
          Event.exec ["/usr/local/bin/kubectl", "-n", "kube-system",
            "create", "secret", "tls", "tls-pem",
            "--cert=" ++ directory ++ "/zarf-server.crt",
            "--key=" ++ directory ++ "/zarf-server.key"],
          Event.print ("Ephemeral CA below and saved to " ++ caFile ++ "\n")],
          none)
  (Event.mkdir directory 0o700 :: rest.1, rest.2)

/-- The path a filesystem event touches, if any. -/
def eventPath : Event → Option String
  | .mkdir p _ => some p
  | .fileCreate p => some p
  | .openFile p _ => some p
  | .pemWrite p _ _ => some p
  | .exec _ => none
  | .print _ => none

/-- Does this event write private-key (PKCS#1) bytes somewhere? -/
def writesPrivateKey : Event → Bool
  | .pemWrite _ _ (.pkcs1 _) => true
  | _ => false

/-- Modelled from the spec: the spec describes the validity duration as
"13 months".  Thirteen consecutive calendar months always span one full
calendar year plus one further month, so they cover at least
365 + 28 days; this constant is that lower bound. -/
def thirteenMonthsMinDays : Nat := 365 + 28

section ModelChecks

example : (newCertificate validFor 5 9).NotAfter - 5 = validFor := by decide
example : randomStringChars.length = 65 := by decide
example : net_ParseIP "127.0.0.1" = some (v4InV6 [127, 0, 0, 1]) := by decide
example : net_ParseIP "example.org" = none := by decide
example : net_ParseIP "localhost" = none := by decide
example : net_ParseIP "::1" =
    some [0, 0, 0, 0, 0, 0, 0, 0, 0, 0, 0, 0, 0, 0, 0, 1] := by decide
example : net_ParseIP "2001:db8::68" =
    some [0x20, 0x01, 0x0d, 0xb8, 0, 0, 0, 0, 0, 0, 0, 0, 0, 0, 0, 0x68] := by
  decide
example : net_ParseIP "::ffff:192.0.2.1" = some (v4InV6 [192, 0, 2, 1]) := by
  decide
example : net_ParseIP "256.1.1.1" = none := by decide
example : net_ParseIP "1.2.3" = none := by decide
example : net_ParseIP "1:2:3:4:5:6:7:8:9" = none := by decide
example : net_ParseIP "1::2::3" = none := by decide

end ModelChecks

section Claims

/-- Every character `RandomString` emits is a character of the alphabet. -/
theorem randomStringChar_mem (b : Nat) :
    randomStringChar b ∈ randomStringChars.toList := by
  have hlt : b % 256 % randomStringChars.length < randomStringChars.toList.length := by
    have h65 : randomStringChars.length = 65 := by decide
    have : randomStringChars.toList.length = 65 := by decide
    rw [this, h65]
    exact Nat.mod_lt _ (by norm_num)
  rw [randomStringChar, List.getD_eq_getElem _ _ hlt]
  exact List.getElem_mem hlt

/-- C2 (amended): `RandomString` returns a string of length exactly the
requested length (one character per random byte), every character of
which belongs to the fixed 65-character alphabet
`randomStringChars`; each character is a random byte reduced modulo the
alphabet size. -/
theorem randomString_length_and_alphabet (randBytes : List Nat) :
    (RandomString randBytes).length = randBytes.length ∧
    ∀ c ∈ (RandomString randBytes).toList, c ∈ randomStringChars.toList := by
  constructor
  · simp [RandomString, String.length]
  · intro c hc
    have hc' : c ∈ randBytes.map randomStringChar := hc
    obtain ⟨b, _, rfl⟩ := List.mem_map.mp hc'
    exact randomStringChar_mem b

set_option maxRecDepth 4096 in
/-- C2 (counterexample): the alphabet has 65 characters, not 70, and
reducing a uniformly distributed byte modulo the alphabet size is not
uniform: 4 of the 256 byte values map to index 0 of the alphabet but
only 3 map to index 64. -/
theorem randomString_alphabet_not_70 :
    randomStringChars.length = 65 ∧ randomStringChars.length ≠ 70 ∧
    (List.range 256).countP (fun b => b % randomStringChars.length = 0) = 4 ∧
    (List.range 256).countP (fun b => b % randomStringChars.length = 64) = 3 := by
  decide

/-- C3 (amended): for every template built by `newCertificate` — both
the CA template and the leaf template extend it without touching the
validity fields — `NotAfter - NotBefore` is exactly the requested
duration and `NotBefore` is the generation-time clock value; the single
configured duration `validFor` is 375 days. -/
theorem template_validity_window (vf now serial : Nat) (host : String) :
    (caTemplate vf now serial).NotAfter - (caTemplate vf now serial).NotBefore
      = vf ∧
    (caTemplate vf now serial).NotBefore = now ∧
    (leafTemplate vf now serial host).NotAfter -
      (leafTemplate vf now serial host).NotBefore = vf ∧
    (leafTemplate vf now serial host).NotBefore = now ∧
    validFor = 375 * nsPerDay := by
  refine ⟨?_, ?_, ?_, ?_, ?_⟩
  · simp [caTemplate, newCertificate]
  · simp [caTemplate, newCertificate]
  · unfold leafTemplate
    cases net_ParseIP host <;> simp [newCertificate]
  · unfold leafTemplate
    cases net_ParseIP host <;> simp [newCertificate]
  · decide

/-- Witness for C2 at a concrete byte list. -/
theorem randomString_length_and_alphabet_witness :
    (RandomString [0, 64, 65, 255]).length = [0, 64, 65, 255].length ∧
    ∀ c ∈ (RandomString [0, 64, 65, 255]).toList,
      c ∈ randomStringChars.toList :=
  randomString_length_and_alphabet [0, 64, 65, 255]

/-- C3 (counterexample): `validFor` is 375 days, which is strictly less
than the minimum span of thirteen consecutive calendar months, so the
configured validity duration is not 13 months. -/
theorem validFor_less_than_13_months :
    validFor / nsPerDay = 375 ∧ 375 < thirteenMonthsMinDays := by decide

/-- Witness for C3 at concrete clock and serial values. -/
theorem template_validity_window_witness :
    (caTemplate validFor 11 7).NotAfter - (caTemplate validFor 11 7).NotBefore
      = validFor ∧
    (caTemplate validFor 11 7).NotBefore = 11 ∧
    (leafTemplate validFor 11 7 "example.org").NotAfter -
      (leafTemplate validFor 11 7 "example.org").NotBefore = validFor ∧
    (leafTemplate validFor 11 7 "example.org").NotBefore = 11 ∧
    validFor = 375 * nsPerDay :=
  template_validity_window validFor 11 7 "example.org"

/-- C5: for a host that does not parse as an IP literal, the leaf
template's DNS SAN list is exactly [host, "localhost", "*.localhost"],
its IP SAN list is empty, and — the prior common name being always the
empty string from `newCertificate` — the common name is set to host. -/
theorem leaf_template_nonIP_sans (vf now serial : Nat) (host : String)
    (h : net_ParseIP host = none) :
    (leafTemplate vf now serial host).DNSNames =
      [host, "localhost", "*.localhost"] ∧
    (leafTemplate vf now serial host).IPAddresses = [] ∧
    (leafTemplate vf now serial host).Subject.CommonName = host := by
  simp [leafTemplate, h, newCertificate]

/-- Witness for C5 at host "example.org". -/
theorem leaf_template_nonIP_sans_example :
    (leafTemplate validFor 0 1 "example.org").DNSNames =
      ["example.org", "localhost", "*.localhost"] ∧
    (leafTemplate validFor 0 1 "example.org").IPAddresses = [] ∧
    (leafTemplate validFor 0 1 "example.org").Subject.CommonName =
      "example.org" :=
  leaf_template_nonIP_sans validFor 0 1 "example.org" (by decide)

/-- C6: for a host that parses as an IP literal, the leaf template's IP
SAN list is exactly that one address and its DNS SAN list is empty. -/
theorem leaf_template_ip_sans (vf now serial : Nat) (host : String)
    (ip : List Nat) (h : net_ParseIP host = some ip) :
    (leafTemplate vf now serial host).IPAddresses = [ip] ∧
    (leafTemplate vf now serial host).DNSNames = [] := by
  simp [leafTemplate, h, newCertificate]

/-- Witness for C6 at host "127.0.0.1". -/
theorem leaf_template_ip_sans_loopback :
    (leafTemplate validFor 0 1 "127.0.0.1").IPAddresses =
      [v4InV6 [127, 0, 0, 1]] ∧
    (leafTemplate validFor 0 1 "127.0.0.1").DNSNames = [] :=
  leaf_template_ip_sans validFor 0 1 "127.0.0.1" (v4InV6 [127, 0, 0, 1])
    (by decide)

/-- C10: for a host that parses as an IP literal, the common-name
defaulting is skipped, so the leaf template's subject carries only the
fixed organization and an empty common name. -/
theorem leaf_template_ip_commonName_empty (vf now serial : Nat)
    (host : String) (ip : List Nat) (h : net_ParseIP host = some ip) :
    (leafTemplate vf now serial host).Subject.CommonName = "" ∧
    (leafTemplate vf now serial host).Subject =
      { Organization := [org], CommonName := "" } := by
  simp [leafTemplate, h, newCertificate]

/-- Witness for C10 at host "127.0.0.1". -/
theorem leaf_template_ip_commonName_empty_loopback :
    (leafTemplate validFor 0 1 "127.0.0.1").Subject.CommonName = "" ∧
    (leafTemplate validFor 0 1 "127.0.0.1").Subject =
      { Organization := [org], CommonName := "" } :=
  leaf_template_ip_commonName_empty validFor 0 1 "127.0.0.1"
    (v4InV6 [127, 0, 0, 1]) (by decide)

/-- When `generateCA` succeeds, the returned certificate is exactly the
CA template (round-tripped through DER) and the key is the fresh key. -/
theorem generateCA_ok (env : Env) (now serial freshKey vf : Nat)
    (caFile : String) (ca : Certificate) (key : Key)
    (h : (generateCA env now serial freshKey caFile vf).2 = .ok (ca, key)) :
    ca = caTemplate vf now serial ∧ key = freshKey := by
  unfold generateCA newPrivateKey x509_CreateCertificate
    x509_ParseCertificate at h
  by_cases h1 : env.keyGenOk freshKey = true <;>
    by_cases h2 : env.createCertOk (caTemplate vf now serial) = true <;>
    by_cases h3 : env.parseCertOk = true <;>
    by_cases h4 : env.createOk caFile = true <;>
    by_cases h5 : env.pemEncodeOk caFile = true <;>
    simp_all

/-- When `generateCA` succeeds, its trace is the creation of the CA file
followed by the PEM write of the self-signed DER bytes to it. -/
theorem generateCA_ok_trace (env : Env) (now serial freshKey vf : Nat)
    (caFile : String) (ca : Certificate) (key : Key)
    (h : (generateCA env now serial freshKey caFile vf).2 = .ok (ca, key)) :
    (generateCA env now serial freshKey caFile vf).1 =
      [Event.fileCreate caFile,
       Event.pemWrite caFile "CERTIFICATE"
         (.certDer (caTemplate vf now serial) (caTemplate vf now serial)
           freshKey freshKey)] := by
  unfold generateCA newPrivateKey x509_CreateCertificate
    x509_ParseCertificate at h ⊢
  by_cases h1 : env.keyGenOk freshKey = true <;>
    by_cases h2 : env.createCertOk (caTemplate vf now serial) = true <;>
    by_cases h3 : env.parseCertOk = true <;>
    by_cases h4 : env.createOk caFile = true <;>
    by_cases h5 : env.pemEncodeOk caFile = true <;>
    simp_all

/-- When `generateFromTemplate` reports success and both `pem.Encode`
steps succeed, the trace is exactly: cert file created, certificate DER
written, key file opened with mode 0600, key bytes written. -/
theorem generateFromTemplate_none_trace (env : Env)
    (certFile keyFile : String) (template parent : Certificate)
    (key parentKey : Key)
    (h : (generateFromTemplate env certFile keyFile template parent key
      parentKey).2 = none)
    (hcrt : env.pemEncodeOk certFile = true)
    (hkey : env.pemEncodeOk keyFile = true) :
    (generateFromTemplate env certFile keyFile template parent key
      parentKey).1 =
      [Event.fileCreate certFile,
       Event.pemWrite certFile "CERTIFICATE"
         (.certDer template parent key parentKey),
       Event.openFile keyFile 0o600,
       Event.pemWrite keyFile "RSA PRIVATE KEY" (.pkcs1 key)] := by
  unfold generateFromTemplate savePrivateKey x509_CreateCertificate at h ⊢
  by_cases h1 : env.createCertOk template = true <;>
    by_cases h2 : env.createOk certFile = true <;>
    by_cases h3 : env.openFileOk keyFile = true <;>
    simp_all

/-- When `generateCert` reports success and both `pem.Encode` steps
succeed, its trace writes the leaf certificate and the leaf key. -/
theorem generateCert_none_trace (env : Env) (now serial freshKey : Nat)
    (host certFile keyFile : String) (ca : Certificate) (caKey : Key)
    (vf : Nat)
    (h : (generateCert env now serial freshKey host certFile keyFile ca
      caKey vf).2 = none)
    (hcrt : env.pemEncodeOk certFile = true)
    (hkey : env.pemEncodeOk keyFile = true) :
    (generateCert env now serial freshKey host certFile keyFile ca caKey
      vf).1 =
      [Event.fileCreate certFile,
       Event.pemWrite certFile "CERTIFICATE"
         (.certDer (leafTemplate vf now serial host) ca freshKey caKey),
       Event.openFile keyFile 0o600,
       Event.pemWrite keyFile "RSA PRIVATE KEY" (.pkcs1 freshKey)] := by
  unfold generateCert newPrivateKey at h ⊢
  split at h
  next => simp_all
  next hk =>
    split at hk
    next =>
      cases hk
      exact generateFromTemplate_none_trace env certFile keyFile _ ca
        freshKey caKey h hcrt hkey
    next => cases hk

/-- C7: the CA certificate returned by `generateCA` has `IsCA = true`
and key usage digital-signature, key-encipherment and certificate-sign;
every leaf template has `IsCA = false` and key usage exactly
digital-signature and key-encipherment, without the certificate-sign
bit. -/
theorem ca_and_leaf_key_usage (env : Env) (now serial freshKey vf : Nat)
    (caFile : String) (ca : Certificate) (key : Key)
    (h : (generateCA env now serial freshKey caFile vf).2 = .ok (ca, key))
    (now2 serial2 : Nat) (host : String) :
    ca.IsCA = true ∧
    ca.KeyUsage = keyUsageDigitalSignature ||| keyUsageKeyEncipherment |||
      keyUsageCertSign ∧
    ca.KeyUsage &&& keyUsageCertSign ≠ 0 ∧
    (leafTemplate vf now2 serial2 host).IsCA = false ∧
    (leafTemplate vf now2 serial2 host).KeyUsage =
      keyUsageDigitalSignature ||| keyUsageKeyEncipherment ∧
    (leafTemplate vf now2 serial2 host).KeyUsage &&& keyUsageCertSign
      = 0 := by
  obtain ⟨rfl, -⟩ := generateCA_ok env now serial freshKey vf caFile ca key h
  refine ⟨by simp [caTemplate, newCertificate], ?_, ?_, ?_, ?_, ?_⟩
  · simp [caTemplate, newCertificate, keyUsageDigitalSignature,
      keyUsageKeyEncipherment, keyUsageCertSign]
  · simp [caTemplate, newCertificate, keyUsageDigitalSignature,
      keyUsageKeyEncipherment, keyUsageCertSign]
  · unfold leafTemplate
    cases net_ParseIP host <;> simp [newCertificate]
  · unfold leafTemplate
    cases net_ParseIP host <;>
      simp [newCertificate, keyUsageDigitalSignature,
        keyUsageKeyEncipherment]
  · unfold leafTemplate
    cases net_ParseIP host <;>
      simp [newCertificate, keyUsageDigitalSignature,
        keyUsageKeyEncipherment, keyUsageCertSign] <;>
      decide

/-- Witness for C7: a concrete successful `generateCA` run. -/
theorem ca_and_leaf_key_usage_witness :
    (caTemplate validFor 0 1).IsCA = true ∧
    (caTemplate validFor 0 1).KeyUsage = keyUsageDigitalSignature |||
      keyUsageKeyEncipherment ||| keyUsageCertSign ∧
    (caTemplate validFor 0 1).KeyUsage &&& keyUsageCertSign ≠ 0 ∧
    (leafTemplate validFor 2 3 "example.org").IsCA = false ∧
    (leafTemplate validFor 2 3 "example.org").KeyUsage =
      keyUsageDigitalSignature ||| keyUsageKeyEncipherment ∧
    (leafTemplate validFor 2 3 "example.org").KeyUsage &&&
      keyUsageCertSign = 0 :=
  ca_and_leaf_key_usage allOk 0 1 2 validFor "/zarf/certs/zarf-ca.pem"
    (caTemplate validFor 0 1) 2 rfl 2 3 "example.org"

/-- C9: in every execution of `generateCA` — whatever the environment
does — each emitted filesystem event is either the creation of the CA
file or the PEM write of certificate DER bytes (label "CERTIFICATE") to
the CA file; no event ever carries private-key bytes, so the CA key is
returned solely in memory. -/
theorem generateCA_never_writes_key (env : Env)
    (now serial freshKey vf : Nat) (caFile : String) :
    ∀ e ∈ (generateCA env now serial freshKey caFile vf).1,
      writesPrivateKey e = false ∧
      (e = Event.fileCreate caFile ∨
        ∃ t p pub s,
          e = Event.pemWrite caFile "CERTIFICATE" (.certDer t p pub s)) := by
  intro e he
  unfold generateCA newPrivateKey x509_CreateCertificate
    x509_ParseCertificate at he
  by_cases h1 : env.keyGenOk freshKey = true <;>
    by_cases h2 : env.createCertOk (caTemplate vf now serial) = true <;>
    by_cases h3 : env.parseCertOk = true <;>
    by_cases h4 : env.createOk caFile = true <;>
    by_cases h5 : env.pemEncodeOk caFile = true <;>
    simp_all <;>
    rcases he with rfl | rfl <;>
    simp [writesPrivateKey]

/-- Witness for C9 at a concrete run and event. -/
theorem generateCA_never_writes_key_witness :
    writesPrivateKey (Event.fileCreate "/zarf/certs/zarf-ca.pem") = false ∧
    (Event.fileCreate "/zarf/certs/zarf-ca.pem" =
        Event.fileCreate "/zarf/certs/zarf-ca.pem" ∨
      ∃ t p pub s,
        Event.fileCreate "/zarf/certs/zarf-ca.pem" =
          Event.pemWrite "/zarf/certs/zarf-ca.pem" "CERTIFICATE"
            (.certDer t p pub s)) :=
  generateCA_never_writes_key allOk 0 1 2 validFor "/zarf/certs/zarf-ca.pem"
    (Event.fileCreate "/zarf/certs/zarf-ca.pem") (by decide)

/-- C8: every file-open event of `savePrivateKey` opens the key file
with mode 0600; whenever the key bytes were persisted that 0600 open is
in the trace; and `GeneratePKI` starts by creating the certificate
directory with mode 0700. -/
theorem key_file_0600_dir_0700 (env : Env) (assetPath : String → String)
    (nowCA serialCA caFresh nowLeaf serialLeaf leafFresh : Nat)
    (host : String) (key : Key) (keyFile : String) :
    (∀ e ∈ (savePrivateKey env key keyFile).1,
      (∀ p m, e = Event.openFile p m → p = keyFile ∧ m = 0o600) ∧
      (writesPrivateKey e = true →
        Event.openFile keyFile 0o600 ∈ (savePrivateKey env key keyFile).1)) ∧
    (GeneratePKI env assetPath nowCA serialCA caFresh nowLeaf serialLeaf
      leafFresh host).1.head? =
      some (Event.mkdir (assetPath "certs") 0o700) := by
  constructor
  · intro e he
    unfold savePrivateKey at he ⊢
    by_cases h1 : env.openFileOk keyFile = true <;>
      by_cases h2 : env.pemEncodeOk keyFile = true <;>
      simp_all <;>
      rcases he with rfl | rfl <;>
      simp [writesPrivateKey]
  · rfl

/-- Witness for C8 at a concrete run and event. -/
theorem key_file_0600_dir_0700_witness :
    ((∀ e ∈ (savePrivateKey allOk 7 "/zarf/certs/zarf-server.key").1,
      (∀ p m, e = Event.openFile p m →
        p = "/zarf/certs/zarf-server.key" ∧ m = 0o600) ∧
      (writesPrivateKey e = true →
        Event.openFile "/zarf/certs/zarf-server.key" 0o600 ∈
          (savePrivateKey allOk 7 "/zarf/certs/zarf-server.key").1)) ∧
    (GeneratePKI allOk (fun s => "/zarf/" ++ s) 0 1 2 3 4 5
      "example.org").1.head? =
      some (Event.mkdir "/zarf/certs" 0o700)) :=
  key_file_0600_dir_0700 allOk (fun s => "/zarf/" ++ s) 0 1 2 3 4 5
    "example.org" 7 "/zarf/certs/zarf-server.key"

/-- C1 (code_bug evidence): run `generateFromTemplate` in an
environment where `os.Create` and `os.OpenFile` succeed but every
`pem.Encode` fails (for example the disk fills after the opens): the
function returns success (`none`), yet neither the certificate bytes
nor the key bytes were written — the Go code discards both `pem.Encode`
results, contradicting the spec's requirement that any I/O failure
surfaces and that success implies both files were written. -/
theorem generateFromTemplate_ignores_pem_failures :
    generateFromTemplate { allOk with pemEncodeOk := fun _ => false }
      "/zarf/certs/zarf-server.crt" "/zarf/certs/zarf-server.key"
      (leafTemplate validFor 0 1 "example.org") (caTemplate validFor 0 2)
      3 4 =
    ([Event.fileCreate "/zarf/certs/zarf-server.crt",
      Event.openFile "/zarf/certs/zarf-server.key" 0o600], none) := by
  rfl

/-- C4 (amended): on a successful `GeneratePKI` run the three artifact
paths are the base directory joined with the fixed names "zarf-ca.pem",
"zarf-server.crt" and "zarf-server.key"; the CA certificate is written
at its path, and when the (unchecked) `pem.Encode` steps for the two
leaf files succeed, the leaf certificate and the leaf private key are
written at theirs. -/
theorem generatePKI_artifact_paths (env : Env)
    (assetPath : String → String)
    (nowCA serialCA caFresh nowLeaf serialLeaf leafFresh : Nat)
    (host : String)
    (h : (GeneratePKI env assetPath nowCA serialCA caFresh nowLeaf
      serialLeaf leafFresh host).2 = none)
    (hcrt : env.pemEncodeOk
      (filepath_Join (assetPath "certs") "zarf-server.crt") = true)
    (hkey : env.pemEncodeOk
      (filepath_Join (assetPath "certs") "zarf-server.key") = true) :
    (∃ b, Event.pemWrite (filepath_Join (assetPath "certs") "zarf-ca.pem")
      "CERTIFICATE" b ∈
      (GeneratePKI env assetPath nowCA serialCA caFresh nowLeaf serialLeaf
        leafFresh host).1) ∧
    (∃ b, Event.pemWrite (filepath_Join (assetPath "certs")
      "zarf-server.crt") "CERTIFICATE" b ∈
      (GeneratePKI env assetPath nowCA serialCA caFresh nowLeaf serialLeaf
        leafFresh host).1) ∧
    (∃ k, Event.pemWrite (filepath_Join (assetPath "certs")
      "zarf-server.key") "RSA PRIVATE KEY" (.pkcs1 k) ∈
      (GeneratePKI env assetPath nowCA serialCA caFresh nowLeaf serialLeaf
        leafFresh host).1) := by
  rcases hca : generateCA env nowCA serialCA caFresh
      (filepath_Join (assetPath "certs") "zarf-ca.pem") validFor with
    ⟨evs, res⟩
  cases res with
  | error e =>
    exfalso
    simp only [GeneratePKI, hca] at h
    exact Option.noConfusion h
  | ok pair =>
    rcases pair with ⟨ca, caKey⟩
    rcases hcert : generateCert env nowLeaf serialLeaf leafFresh host
        (filepath_Join (assetPath "certs") "zarf-server.crt")
        (filepath_Join (assetPath "certs") "zarf-server.key") ca caKey
        validFor with ⟨evs2, res2⟩
    cases res2 with
    | some e =>
      exfalso
      simp only [GeneratePKI, hca, hcert] at h
      exact Option.noConfusion h
    | none =>
      have hevs : evs = [Event.fileCreate
          (filepath_Join (assetPath "certs") "zarf-ca.pem"),
          Event.pemWrite (filepath_Join (assetPath "certs") "zarf-ca.pem")
            "CERTIFICATE"
            (.certDer (caTemplate validFor nowCA serialCA)
              (caTemplate validFor nowCA serialCA) caFresh caFresh)] := by
        have := generateCA_ok_trace env nowCA serialCA caFresh validFor
          (filepath_Join (assetPath "certs") "zarf-ca.pem") ca caKey
          (by rw [hca])
        rwa [hca] at this
      have hevs2 : evs2 = [Event.fileCreate
          (filepath_Join (assetPath "certs") "zarf-server.crt"),
          Event.pemWrite
            (filepath_Join (assetPath "certs") "zarf-server.crt")
            "CERTIFICATE"
            (.certDer (leafTemplate validFor nowLeaf serialLeaf host) ca
              leafFresh caKey),
          Event.openFile
            (filepath_Join (assetPath "certs") "zarf-server.key") 0o600,
          Event.pemWrite
            (filepath_Join (assetPath "certs") "zarf-server.key")
            "RSA PRIVATE KEY" (.pkcs1 leafFresh)] := by
        have := generateCert_none_trace env nowLeaf serialLeaf leafFresh
          host (filepath_Join (assetPath "certs") "zarf-server.crt")
          (filepath_Join (assetPath "certs") "zarf-server.key") ca caKey
          validFor (by rw [hcert]) hcrt hkey
        rwa [hcert] at this
      refine ⟨⟨.certDer (caTemplate validFor nowCA serialCA)
          (caTemplate validFor nowCA serialCA) caFresh caFresh, ?_⟩,
        ⟨.certDer (leafTemplate validFor nowLeaf serialLeaf host) ca
          leafFresh caKey, ?_⟩,
        ⟨leafFresh, ?_⟩⟩ <;>
        simp [GeneratePKI, hca, hcert, hevs, hevs2]

/-- Witness for C4 at a concrete all-success run. -/
theorem generatePKI_artifact_paths_witness :
    (∃ b, Event.pemWrite "/zarf/certs/zarf-ca.pem" "CERTIFICATE" b ∈
      (GeneratePKI allOk (fun s => "/zarf/" ++ s) 0 1 2 3 4 5
        "example.org").1) ∧
    (∃ b, Event.pemWrite "/zarf/certs/zarf-server.crt" "CERTIFICATE" b ∈
      (GeneratePKI allOk (fun s => "/zarf/" ++ s) 0 1 2 3 4 5
        "example.org").1) ∧
    (∃ k, Event.pemWrite "/zarf/certs/zarf-server.key" "RSA PRIVATE KEY"
      (.pkcs1 k) ∈
      (GeneratePKI allOk (fun s => "/zarf/" ++ s) 0 1 2 3 4 5
        "example.org").1) :=
  generatePKI_artifact_paths allOk (fun s => "/zarf/" ++ s) 0 1 2 3 4 5
    "example.org" rfl rfl rfl

set_option maxRecDepth 8192 in
/-- C4 (counterexample): a concrete fully successful run writes no file
at `<dir>/ca.pem`, `<dir>/server.crt` or `<dir>/server.key` — no event
even touches those paths — because the fixed names carry a `zarf-`
prefix. -/
theorem generatePKI_no_plain_names :
    (GeneratePKI allOk (fun s => "/var/lib/zarf/" ++ s) 0 1 2 3 4 5
      "example.org").2 = none ∧
    ∀ e ∈ (GeneratePKI allOk (fun s => "/var/lib/zarf/" ++ s) 0 1 2 3 4 5
      "example.org").1,
      eventPath e ≠ some "/var/lib/zarf/certs/ca.pem" ∧
      eventPath e ≠ some "/var/lib/zarf/certs/server.crt" ∧
      eventPath e ≠ some "/var/lib/zarf/certs/server.key" := by
  decide

end Claims
